import Mathlib

/-!
Verification of the WhichisViz scan-detect-select-visualize pipeline.

Shallow embedding of:
  - the canonical Block geometry model (`src/lib/types.ts`),
  - the detection-response normalization of `src/app/api/ocr/route.ts` (POST),
  - the click hit-test and page-level handlers of `src/components/CameraFeed.tsx`
    and the Home page component (`handleTextSelected`, `handleReset`,
    `handleVisualise`),
  - the single-flight OCR polling loop of `src/components/CameraFeed.tsx`,
  - the 2D per-frame script loop of `src/components/renderers/TwoDScene.tsx`.

Numbers that the source manipulates as JS numbers are modelled by `ℚ`;
frame counters are `Nat`.  Asynchronous code is modelled by explicit event
traces acting on explicit state records.
-/

/-! ## Geometry model (`src/lib/types.ts`, interface OCRBlock) -/

/-- Normalized bounding box, fields in the order of `OCRBlock.bbox`. -/
structure BBox where
  x0 : ℚ
  y0 : ℚ
  x1 : ℚ
  y1 : ℚ
deriving DecidableEq

/-- A detected text block: `{ text, bbox }` (`src/lib/types.ts`). -/
structure OCRBlock where
  text : String
  bbox : BBox
deriving DecidableEq

/-- The containment test of `handleCanvasClick`
(`CameraFeed.tsx`: `normX >= b.bbox.x0 && normX <= b.bbox.x1 && normY >= b.bbox.y0 && normY <= b.bbox.y1`). -/
def containsPoint (b : OCRBlock) (nx ny : ℚ) : Bool :=
  decide (b.bbox.x0 ≤ nx) && decide (nx ≤ b.bbox.x1) &&
  decide (b.bbox.y0 ≤ ny) && decide (ny ≤ b.bbox.y1)

/-- `ocrBlocks.find(...)` of `handleCanvasClick`: first matching block in
detection-result order, or none. -/
def hitTest (blocks : List OCRBlock) (nx ny : ℚ) : Option OCRBlock :=
  blocks.find? (fun b => containsPoint b nx ny)

/-! ## Page-level application state
(Home component embedded alongside `src/app/api/visualize/route.ts`, plus the
`ocrBlocks` / `isProcessing` state of `CameraFeed.tsx`). -/

/-- `LogEntry.type` of `src/lib/types.ts`. -/
inductive LogType where
  | info
  | success
  | error
deriving DecidableEq

/-- A log record: message plus severity (id / timestamp omitted, they carry no
pipeline information). -/
structure LogEntry where
  message : String
  type : LogType
deriving DecidableEq

/-- `VisualizationType` of `src/lib/types.ts`: `"2D" | "3D"`. -/
inductive VizMode where
  | twoD
  | threeD
deriving DecidableEq

/-- `VisualizationResponse` of `src/lib/types.ts`. -/
structure VizPlan where
  type : VizMode
  script : String
  reasoning : String
deriving DecidableEq

/-- The rendering of a `VizMode` as it appears in log messages. -/
def vizModeText : VizMode → String
  | .twoD => "2D"
  | .threeD => "3D"

/-- Combined state of the Home page component and its `CameraFeed` child:
`isScanning`, `selectedText`, `vizType`, `vizScript`, `glbUrl`, `colabUrl`,
`logs` live in the page; `ocrBlocks` and the in-flight flag live in
`CameraFeed`. -/
structure AppState where
  isScanning : Bool
  isProcessing : Bool
  ocrBlocks : List OCRBlock
  selectedText : String
  colabUrl : String
  vizType : Option VizMode
  vizScript : String
  glbUrl : Option String
  logs : List LogEntry
deriving DecidableEq

/-- `addLog` of the Home component: appends newest-last. -/
def addLog (s : AppState) (m : String) (t : LogType) : AppState :=
  { s with logs := s.logs ++ [⟨m, t⟩] }

/-- `handleTextSelected` of the Home component: store the text and pause
scanning. -/
def handleTextSelected (s : AppState) (text : String) : AppState :=
  { s with selectedText := text, isScanning := false }

/-- `handleCanvasClick` of `CameraFeed.tsx` from the normalized click point
onward: find the first containing block; when found, report it
(`onTextSelected`, then the success log); otherwise do nothing. -/
def handleCanvasClick (s : AppState) (nx ny : ℚ) : AppState :=
  match hitTest s.ocrBlocks nx ny with
  | some b => addLog (handleTextSelected s b.text) ("Selected: \"" ++ b.text ++ "\"") .success
  | none => s

/-- `handleReset` of the Home component: clears selection and visualization
state, resumes scanning, logs.  It does not touch `ocrBlocks`, which is state
of the `CameraFeed` child. -/
def handleReset (s : AppState) : AppState :=
  { s with selectedText := "", vizType := none, vizScript := "",
           glbUrl := none, isScanning := true,
           logs := s.logs ++ [⟨"System reset. Resume scanning.", .info⟩] }

/-! ## Detection-response normalization (`src/app/api/ocr/route.ts`, POST)

The collaborator returns blocks `{ text, box_2d: [ymin, xmin, ymax, xmax] }`
on a 0-1000 scale; the route maps each to a normalized `OCRBlock` by dividing
every coordinate by 1000. -/

/-- A raw block of the collaborator response: `{ text, box_2d }`. -/
structure RawBlock where
  text : String
  box_2d : List ℚ
deriving DecidableEq

/-- The `bbox` built by the route from `b.box_2d = [ymin, xmin, ymax, xmax]`:
`y0 = box_2d[0]/1000, x0 = box_2d[1]/1000, y1 = box_2d[2]/1000,
x1 = box_2d[3]/1000`. -/
def normalizeBBox (box : List ℚ) : BBox :=
  { y0 := box.getD 0 0 / 1000
    x0 := box.getD 1 0 / 1000
    y1 := box.getD 2 0 / 1000
    x1 := box.getD 3 0 / 1000 }

/-- One mapped element of `(parsedData.blocks || []).map(...)`. -/
def ocrNormalize (b : RawBlock) : OCRBlock :=
  { text := b.text, bbox := normalizeBBox b.box_2d }

/-- The block list the route responds with. -/
def ocrPOSTBlocks (resp : List RawBlock) : List OCRBlock :=
  resp.map ocrNormalize

/-- A valid collaborator block: the four `box_2d` entries are on the 0-1000
scale with `ymin ≤ ymax` and `xmin ≤ xmax`. -/
def validRawBlock (b : RawBlock) : Prop :=
  0 ≤ b.box_2d.getD 1 0 ∧ b.box_2d.getD 1 0 ≤ b.box_2d.getD 3 0 ∧
  b.box_2d.getD 3 0 ≤ 1000 ∧
  0 ≤ b.box_2d.getD 0 0 ∧ b.box_2d.getD 0 0 ≤ b.box_2d.getD 2 0 ∧
  b.box_2d.getD 2 0 ≤ 1000

instance (b : RawBlock) : Decidable (validRawBlock b) := by
  unfold validRawBlock
  infer_instance

/-- The spec invariant on an emitted Block. -/
def blockInvariant (b : OCRBlock) : Prop :=
  0 ≤ b.bbox.x0 ∧ b.bbox.x0 ≤ b.bbox.x1 ∧ b.bbox.x1 ≤ 1 ∧
  0 ≤ b.bbox.y0 ∧ b.bbox.y0 ≤ b.bbox.y1 ∧ b.bbox.y1 ≤ 1

instance (b : OCRBlock) : Decidable (blockInvariant b) := by
  unfold blockInvariant
  infer_instance

/-! ## The visualize action (`handleVisualise` of the Home component)

The remote calls are modelled by their outcomes: `plan` is the outcome of the
`/api/visualize` fetch (response body or thrown error message), `render` the
outcome of the `colabUrl/render` fetch (object URL of the received blob or
thrown error message).  The returned Bool records whether the render fetch was
attempted. -/

def handleVisualise (s : AppState) (plan : Except String VizPlan)
    (render : Except String String) : AppState × Bool :=
  if s.selectedText = "" then (s, false)
  else
    let s1 := addLog s
      ("Analyzing: \"" ++ s.selectedText.take 30 ++ "...\"") .info
    match plan with
    | .error e => (addLog s1 e .error, false)
    | .ok p =>
      let s2 := addLog s1
        ("Decision: " ++ vizModeText p.type ++ " (" ++ p.reasoning ++ ")")
        .success
      match p.type with
      | .twoD =>
        ({ s2 with vizType := some .twoD, vizScript := p.script }, false)
      | .threeD =>
        if s2.colabUrl = "" then
          (addLog s2 "Error: Colab Backend URL is missing" .error, false)
        else
          let s3 := addLog s2 "Sending to 3D Renderer (Colab)..." .info
          match render with
          | .error e => (addLog s3 e .error, true)
          | .ok url =>
            (addLog { s3 with glbUrl := some url, vizType := some .threeD }
              "3D Model received and loaded" .success, true)

/-! ## Event machine for the capture / selection session (C2, C5)

`ocrTick` is one invocation of `runOCR` (`CameraFeed.tsx`); `ocrRespond` is
the resolution of its awaited `/api/ocr` fetch, which applies
`setOcrBlocks(data.blocks)` unconditionally whenever the response is ok and
carries a block array; `canvasClick` is `handleCanvasClick`; `reset` is
`handleReset`. -/

inductive AppEvent where
  | ocrTick (videoReady : Bool)
  | ocrRespond (ok : Bool) (blocks : List OCRBlock)
  | canvasClick (nx ny : ℚ)
  | reset

def appStep : AppEvent → AppState → AppState
  | .ocrTick videoReady, s =>
    if s.isProcessing || !s.isScanning || !videoReady then s
    else { s with isProcessing := true }
  | .ocrRespond ok blocks, s =>
    if s.isProcessing then
      if ok then
        { s with ocrBlocks := blocks, isProcessing := false,
                 logs := s.logs ++
                   [⟨"Detected " ++ toString blocks.length ++
                     " text blocks via Gemini", .info⟩] }
      else { s with isProcessing := false }
    else s
  | .canvasClick nx ny, s => handleCanvasClick s nx ny
  | .reset, s => handleReset s

def appRun (evs : List AppEvent) (s : AppState) : AppState :=
  evs.foldl (fun st e => appStep e st) s

/-! ## The OCR effect of `CameraFeed.tsx` with its instance lifecycle

The OCR effect declares `let isProcessing = false` as a variable LOCAL to the
effect instance; its dependency array is `[isScanning, onLog]`, so the effect
tears down and re-runs — re-creating the flag as `false` — whenever scanning
toggles or the `onLog` identity changes.  The cleanup only clears the
interval; a fetch submitted by an earlier instance is not cancelled and stays
in flight.  `curGen` numbers the currently mounted effect instance;
`procFlags g` is instance `g`'s own `isProcessing` closure variable (every
instance starts at `false`); `inFlight` lists the instances whose submitted
detection request has not yet completed; `dropped` counts invocations of
`runOCR` that returned without submitting a frame.  There is no queue in the
source and none in the model. -/

structure OcrEffectState where
  curGen : Nat
  procFlags : Nat → Bool
  inFlight : List Nat
  dropped : Nat

def ocrEffectInit : OcrEffectState := ⟨0, fun _ => false, [], 0⟩

inductive OcrEffectEvent where
  | tick (videoReady isScanning : Bool)
  | complete (g : Nat)
  | rerunEffect

/-- One step of the machinery.
`tick`: one invocation of `runOCR` in the CURRENT effect instance (ticks of
torn-down instances no longer fire, their interval was cleared): the guard
`if (!videoRef.current || isProcessing || !isScanning) return` (plus the
readiness check) reads the current instance's own flag and drops the tick;
otherwise that flag is set and the frame is submitted.
`complete g`: the detection call submitted by instance `g` resolves; its
`finally { isProcessing = false }` clears that closure's flag.
`rerunEffect`: a dependency change (`isScanning` toggled by select/reset, or a
fresh `onLog` identity): cleanup clears the interval, a new instance mounts
with a fresh `isProcessing = false`; in-flight fetches are not cancelled. -/
def ocrEffectStep : OcrEffectEvent → OcrEffectState → OcrEffectState
  | .tick vr sc, s =>
    if s.procFlags s.curGen || !sc || !vr then
      { s with dropped := s.dropped + 1 }
    else
      { s with procFlags := fun g => if g = s.curGen then true else s.procFlags g,
               inFlight := s.inFlight ++ [s.curGen] }
  | .complete g, s =>
    if g ∈ s.inFlight then
      { s with procFlags := fun h => if h = g then false else s.procFlags h,
               inFlight := s.inFlight.erase g }
    else s
  | .rerunEffect, s => { s with curGen := s.curGen + 1 }

def ocrEffectRun (evs : List OcrEffectEvent) (s : OcrEffectState) :
    OcrEffectState :=
  evs.foldl (fun st e => ocrEffectStep e st) s

/-! ## 2D per-frame script loop (`src/components/renderers/TwoDScene.tsx`)

`drawFrame` is the compiled script, which on a given frame either returns or
throws; `renderTick` is one `render()` invocation: invoke the script inside
try/catch, then increment `frameCountRef` and schedule the next frame.
`invocations` records the `frameCount` argument of every script invocation;
`caughtErrors` records the frames whose invocation threw (the error is logged
and swallowed). -/

structure SceneState where
  frameCount : Nat
  invocations : List Nat
  caughtErrors : List Nat
deriving DecidableEq

def mountScene : SceneState := ⟨0, [], []⟩

def renderTick (drawFrame : Nat → Except String Unit) (s : SceneState) :
    SceneState :=
  { frameCount := s.frameCount + 1
    invocations := s.invocations ++ [s.frameCount]
    caughtErrors :=
      match drawFrame s.frameCount with
      | .ok _ => s.caughtErrors
      | .error _ => s.caughtErrors ++ [s.frameCount] }

def runTicks (drawFrame : Nat → Except String Unit) :
    Nat → SceneState → SceneState
  | 0, s => s
  | n + 1, s => runTicks drawFrame n (renderTick drawFrame s)

/-- A script-prop change: the effect cleanup cancels the pending animation
frame and removes the resize listener; `frameCountRef` is a component-level
ref and is not reset. -/
def scriptChange (s : SceneState) : SceneState := s

/-! ## Concrete instances used in counterexamples and witnesses -/

/-- Concrete blocks used in counterexamples and witnesses. -/
def blockA : OCRBlock := ⟨"Alpha", ⟨0, 0, 1, 1⟩⟩

def blockB : OCRBlock := ⟨"Beta", ⟨1, 1, 1, 1⟩⟩

def c2Start : AppState :=
  ⟨true, false, [blockA], "", "", none, "", none, []⟩

def c3State : AppState :=
  ⟨true, false, [blockA, blockB], "", "", none, "", none, []⟩

def c4Start : AppState :=
  ⟨false, false, [blockA], "Alpha", "", none, "", none, []⟩

def c5Start : AppState :=
  ⟨false, false, [blockA], "Alpha", "", some .twoD, "x", none, []⟩

def photoRaw : RawBlock := ⟨"Photosynthesis", [100, 200, 300, 600]⟩

def c8Start : AppState :=
  ⟨false, false, [blockA], "Mitochondria", "", none, "", none, []⟩

def c8Plan : VizPlan := ⟨.threeD, "import bpy", "single complex object"⟩

/-- The compiled scenario-C script of the witness: throws exactly on frame 5. -/
def demoDraw : Nat → Except String Unit :=
  fun n => if n = 5 then .error "forced throw" else .ok ()

/-- A script that never throws, for the C10 witness. -/
def demoDrawOk : Nat → Except String Unit := fun _ => .ok ()

/-! ## List.find? helper lemmas for the hit-test -/

theorem find?_append_first {α} (p : α → Bool) (l₁ l₂ : List α) (b : α)
    (h₁ : ∀ x ∈ l₁, p x = false) (hb : p b = true) :
    (l₁ ++ b :: l₂).find? p = some b := by
  induction l₁ with
  | nil => simp [List.find?, hb]
  | cons a t ih =>
    have ha : p a = false := h₁ a (by simp)
    simp only [List.cons_append, List.find?]
    rw [ha]
    exact ih (fun x hx => h₁ x (by simp [hx]))

theorem find?_of_unique {α} (p : α → Bool) (l : List α) (b : α)
    (hb : b ∈ l) (hpb : p b = true)
    (huniq : ∀ x ∈ l, p x = true → x = b) :
    l.find? p = some b := by
  induction l with
  | nil => cases hb
  | cons a t ih =>
    by_cases hpa : p a = true
    · have hab : a = b := huniq a (by simp) hpa
      subst hab
      simp [List.find?, hpa]
    · have hpa' : p a = false := by
        cases h : p a
        · rfl
        · exact absurd h hpa
      simp only [List.find?]
      rw [hpa']
      have hb' : b ∈ t := by
        rcases List.mem_cons.mp hb with h | h
        · subst h; exact absurd hpb hpa
        · exact h
      exact ih hb' (fun x hx hpx => huniq x (List.mem_cons_of_mem _ hx) hpx)

theorem find?_none_of_all_false {α} (p : α → Bool) (l : List α)
    (h : ∀ x ∈ l, p x = false) : l.find? p = none := by
  induction l with
  | nil => rfl
  | cons a t ih =>
    simp only [List.find?]
    rw [h a (by simp)]
    exact ih (fun x hx => h x (by simp [hx]))

/-! ## Claim theorems C1 - C5 -/

/-- C1 (code evaluated at the failing input): effect instance 0 submits a
detection call; while it is still in flight the OCR effect re-runs twice
(a selection pauses scanning, cancel resumes it — each toggle of `isScanning`
re-runs the effect and re-creates its local `isProcessing` as false).  The
next tick fires while the first call is still outstanding, yet it is NOT
dropped: the fresh instance's own flag is false, so a second frame is
submitted and two detection calls are outstanding at once, against the
claimed single-flight invariant. -/
theorem c1_second_outstanding_call :
    (ocrEffectRun [OcrEffectEvent.tick true true] ocrEffectInit).inFlight
      = [0] ∧
    (ocrEffectRun [OcrEffectEvent.tick true true, OcrEffectEvent.rerunEffect,
        OcrEffectEvent.rerunEffect, OcrEffectEvent.tick true true]
      ocrEffectInit).inFlight = [0, 2] ∧
    (ocrEffectRun [OcrEffectEvent.tick true true, OcrEffectEvent.rerunEffect,
        OcrEffectEvent.rerunEffect, OcrEffectEvent.tick true true]
      ocrEffectInit).inFlight.length = 2 ∧
    (ocrEffectRun [OcrEffectEvent.tick true true, OcrEffectEvent.rerunEffect,
        OcrEffectEvent.rerunEffect, OcrEffectEvent.tick true true]
      ocrEffectInit).dropped = 0 := by
  refine ⟨rfl, rfl, rfl, rfl⟩

/-- C2 (code evaluated at the failing input): a detection request is issued,
then a selection pauses scanning (the session is superseded), and only then
the response resolves — the code still applies it: the displayed Block list
becomes the stale response payload instead of being discarded. -/
theorem c2_stale_response_applied :
    (appRun [AppEvent.ocrTick true, AppEvent.canvasClick (0 : ℚ) 0,
             AppEvent.ocrRespond true [blockB]] c2Start).selectedText = "Alpha" ∧
    (appRun [AppEvent.ocrTick true, AppEvent.canvasClick (0 : ℚ) 0,
             AppEvent.ocrRespond true [blockB]] c2Start).isScanning = false ∧
    (appRun [AppEvent.ocrTick true, AppEvent.canvasClick (0 : ℚ) 0,
             AppEvent.ocrRespond true [blockB]] c2Start).ocrBlocks = [blockB] ∧
    [blockB] ≠ [blockA] := by
  refine ⟨by decide, by decide, by decide, by decide⟩

/-- C3: the hit-test selects the unique containing block when exactly one
contains the point; leaves the whole state unchanged when no block contains
it; and selects the first containing block in detection-result order when
several overlap. -/
theorem c3_hit_test :
    (∀ (s : AppState) (nx ny : ℚ) (b : OCRBlock), b ∈ s.ocrBlocks →
        containsPoint b nx ny = true →
        (∀ x ∈ s.ocrBlocks, containsPoint x nx ny = true → x = b) →
        (handleCanvasClick s nx ny).selectedText = b.text) ∧
    (∀ (s : AppState) (nx ny : ℚ),
        (∀ x ∈ s.ocrBlocks, containsPoint x nx ny = false) →
        handleCanvasClick s nx ny = s) ∧
    (∀ (s : AppState) (nx ny : ℚ) (l₁ l₂ : List OCRBlock) (b : OCRBlock),
        s.ocrBlocks = l₁ ++ b :: l₂ → containsPoint b nx ny = true →
        (∀ x ∈ l₁, containsPoint x nx ny = false) →
        (handleCanvasClick s nx ny).selectedText = b.text) := by
  refine ⟨?_, ?_, ?_⟩
  · intro s nx ny b hmem hcont huniq
    have hfind : hitTest s.ocrBlocks nx ny = some b :=
      find?_of_unique _ _ _ hmem hcont huniq
    unfold handleCanvasClick
    rw [hfind]
    rfl
  · intro s nx ny hall
    have hfind : hitTest s.ocrBlocks nx ny = none :=
      find?_none_of_all_false _ _ hall
    unfold handleCanvasClick
    rw [hfind]
  · intro s nx ny l₁ l₂ b hs hcont hfirst
    have hfind : hitTest s.ocrBlocks nx ny = some b := by
      unfold hitTest
      rw [hs]
      exact find?_append_first _ _ _ _ hfirst hcont
    unfold handleCanvasClick
    rw [hfind]
    rfl

/-- C3 witness: a click at (0, 0), inside exactly `blockA`, selects it. -/
theorem c3_hit_test_witness :
    (handleCanvasClick c3State (0 : ℚ) 0).selectedText = blockA.text :=
  c3_hit_test.1 c3State (0 : ℚ) 0 blockA (by decide) (by decide) (by decide)

/-- C4 counterexample: `blockA` is already selected and the click point lies
inside its bbox, yet after the click the selection still contains `blockA` —
the code re-selects, it never toggles off. -/
theorem c4_counterexample :
    c4Start.selectedText = blockA.text ∧
    containsPoint blockA (0 : ℚ) 0 = true ∧
    (handleCanvasClick c4Start (0 : ℚ) 0).selectedText = blockA.text := by
  refine ⟨rfl, by decide, by decide⟩

/-- C4 amended: a click whose point hits a block selects that block (replacing
the selection) even when it is already selected, and pauses scanning; a click
under no block leaves the state unchanged — clicks never deselect. -/
theorem c4_click_keeps_selection :
    (∀ (s : AppState) (nx ny : ℚ) (b : OCRBlock),
        hitTest s.ocrBlocks nx ny = some b →
        (handleCanvasClick s nx ny).selectedText = b.text ∧
        (handleCanvasClick s nx ny).isScanning = false) ∧
    (∀ (s : AppState) (nx ny : ℚ),
        hitTest s.ocrBlocks nx ny = none → handleCanvasClick s nx ny = s) := by
  constructor
  · intro s nx ny b h
    unfold handleCanvasClick
    rw [h]
    exact ⟨rfl, rfl⟩
  · intro s nx ny h
    unfold handleCanvasClick
    rw [h]

/-- C4 witness: clicking the already-selected `blockA` keeps it selected. -/
theorem c4_click_keeps_selection_witness :
    (handleCanvasClick c4Start (0 : ℚ) 0).selectedText = blockA.text ∧
    (handleCanvasClick c4Start (0 : ℚ) 0).isScanning = false :=
  c4_click_keeps_selection.1 c4Start (0 : ℚ) 0 blockA (by decide)

/-- C5 counterexample: after `handleReset` the displayed Block list is NOT
empty — it still holds the pre-reset block — and a subsequent hit-test selects
that block from the discarded detection result. -/
theorem c5_counterexample :
    ¬(handleReset c5Start).ocrBlocks = [] ∧
    (handleReset c5Start).ocrBlocks = [blockA] ∧
    (appRun [AppEvent.reset, AppEvent.canvasClick (0 : ℚ) 0]
      c5Start).selectedText = blockA.text := by
  refine ⟨by decide, rfl, by decide⟩

/-- C5 amended: reset clears the selection and all visualization state and
resumes scanning, but leaves the displayed Block list unchanged, so a
hit-test after reset can still select a pre-reset block. -/
theorem c5_reset_clears_selection_not_blocks :
    ∀ s : AppState,
      (handleReset s).selectedText = "" ∧
      (handleReset s).vizType = none ∧
      (handleReset s).vizScript = "" ∧
      (handleReset s).glbUrl = none ∧
      (handleReset s).isScanning = true ∧
      (handleReset s).ocrBlocks = s.ocrBlocks := by
  intro s
  exact ⟨rfl, rfl, rfl, rfl, rfl, rfl⟩

/-! ## Claim theorems C6 - C8 -/

/-- C6: for every valid detection response (each `box_2d` on the 0-1000 scale
with ordered coordinates), every Block emitted by the route after division by
1000 satisfies `0 ≤ x0 ≤ x1 ≤ 1` and `0 ≤ y0 ≤ y1 ≤ 1`. -/
theorem c6_block_invariant :
    ∀ resp : List RawBlock, (∀ b ∈ resp, validRawBlock b) →
      ∀ ob ∈ ocrPOSTBlocks resp, blockInvariant ob := by
  intro resp hvalid ob hob
  unfold ocrPOSTBlocks at hob
  rcases List.mem_map.mp hob with ⟨b, hb, rfl⟩
  rcases hvalid b hb with ⟨h1, h2, h3, h4, h5, h6⟩
  refine ⟨?_, ?_, ?_, ?_, ?_, ?_⟩
  · show (0 : ℚ) ≤ b.box_2d.getD 1 0 / 1000
    linarith
  · show b.box_2d.getD 1 0 / 1000 ≤ b.box_2d.getD 3 0 / 1000
    linarith
  · show b.box_2d.getD 3 0 / 1000 ≤ 1
    linarith
  · show (0 : ℚ) ≤ b.box_2d.getD 0 0 / 1000
    linarith
  · show b.box_2d.getD 0 0 / 1000 ≤ b.box_2d.getD 2 0 / 1000
    linarith
  · show b.box_2d.getD 2 0 / 1000 ≤ 1
    linarith

/-- C6 witness: the scenario-A block is valid and its emitted Block satisfies
the invariant. -/
theorem c6_block_invariant_witness :
    blockInvariant (ocrNormalize photoRaw) :=
  c6_block_invariant [photoRaw] (by intro b hb; simp at hb; subst hb; decide)
    (ocrNormalize photoRaw) (by simp [ocrPOSTBlocks])

/-- C7: the scenario-A collaborator block normalizes to
`{x0 := 0.2, y0 := 0.1, x1 := 0.6, y1 := 0.3}` (as rationals `1/5, 1/10, 3/5,
3/10`), and in general `x0 = box_2d[1]/1000`, `y0 = box_2d[0]/1000`,
`x1 = box_2d[3]/1000`, `y1 = box_2d[2]/1000`. -/
theorem c7_normalization :
    ocrNormalize photoRaw =
      ⟨"Photosynthesis", ⟨1/5, 1/10, 3/5, 3/10⟩⟩ ∧
    ∀ (t : String) (b0 b1 b2 b3 : ℚ),
      ocrNormalize ⟨t, [b0, b1, b2, b3]⟩ =
        ⟨t, ⟨b1 / 1000, b0 / 1000, b3 / 1000, b2 / 1000⟩⟩ := by
  constructor
  · unfold photoRaw ocrNormalize normalizeBBox
    norm_num
  · intro t b0 b1 b2 b3
    rfl

/-! ## C8: visualize with a 3D plan and no configured rendering endpoint -/

/-- C8: when the plan is 3D and the Colab endpoint is unconfigured, the
visualize action logs the distinct missing-configuration error, never attempts
the render call, and leaves the pre-visualize state (selection, viz state,
blocks) untouched. -/
theorem c8_missing_endpoint :
    ∀ (s : AppState) (p : VizPlan) (render : Except String String),
      s.selectedText ≠ "" → p.type = .threeD → s.colabUrl = "" →
      (handleVisualise s (.ok p) render).2 = false ∧
      (handleVisualise s (.ok p) render).1.selectedText = s.selectedText ∧
      (handleVisualise s (.ok p) render).1.vizType = s.vizType ∧
      (handleVisualise s (.ok p) render).1.vizScript = s.vizScript ∧
      (handleVisualise s (.ok p) render).1.glbUrl = s.glbUrl ∧
      (handleVisualise s (.ok p) render).1.ocrBlocks = s.ocrBlocks ∧
      (handleVisualise s (.ok p) render).1.logs =
        s.logs ++
          [⟨"Analyzing: \"" ++ s.selectedText.take 30 ++ "...\"", .info⟩,
           ⟨"Decision: 3D (" ++ p.reasoning ++ ")", .success⟩,
           ⟨"Error: Colab Backend URL is missing", .error⟩] := by
  intro s p render hsel htype hurl
  unfold handleVisualise
  rw [if_neg hsel]
  dsimp only
  rw [htype]
  simp [addLog, vizModeText, hurl]

/-- C8 witness: the scenario-B state (selection "Mitochondria", empty Colab
URL, 3D plan): no render call, selection retained, error logged. -/
theorem c8_missing_endpoint_witness :
    (handleVisualise c8Start (.ok c8Plan) (.error "unused")).2 = false ∧
    (handleVisualise c8Start (.ok c8Plan)
        (.error "unused")).1.selectedText = c8Start.selectedText :=
  ⟨(c8_missing_endpoint c8Start c8Plan (.error "unused") (by decide) rfl rfl).1,
   (c8_missing_endpoint c8Start c8Plan (.error "unused") (by decide) rfl rfl).2.1⟩

/-! ## Helper lemmas: the 2D frame loop -/

theorem runTicks_frameCount (d : Nat → Except String Unit) (n : Nat) :
    ∀ s : SceneState, (runTicks d n s).frameCount = s.frameCount + n := by
  induction n with
  | zero => intro s; rfl
  | succ k ih =>
    intro s
    show (runTicks d k (renderTick d s)).frameCount = s.frameCount + (k + 1)
    rw [ih]
    show s.frameCount + 1 + k = s.frameCount + (k + 1)
    omega

theorem runTicks_invocations (d : Nat → Except String Unit) (n : Nat) :
    ∀ s : SceneState,
      (runTicks d n s).invocations =
        s.invocations ++ (List.range n).map (s.frameCount + ·) := by
  induction n with
  | zero =>
    intro s
    show s.invocations = s.invocations ++ (List.range 0).map (s.frameCount + ·)
    simp
  | succ k ih =>
    intro s
    show (runTicks d k (renderTick d s)).invocations = _
    rw [ih]
    show (s.invocations ++ [s.frameCount]) ++
        (List.range k).map ((s.frameCount + 1) + ·) =
      s.invocations ++ (List.range (k + 1)).map (s.frameCount + ·)
    rw [List.range_succ_eq_map, List.append_assoc]
    simp only [List.map_cons, List.map_map, List.cons_append, List.nil_append,
      Nat.add_zero]
    have : ∀ i ∈ List.range k,
        ((s.frameCount + ·) ∘ Nat.succ) i = (s.frameCount + 1) + i := by
      intro i _
      simp [Function.comp]
      omega
    rw [List.map_congr_left this]

theorem runTicks_caught_mono (d : Nat → Except String Unit) (n : Nat) :
    ∀ (s : SceneState) (x : Nat), x ∈ s.caughtErrors →
      x ∈ (runTicks d n s).caughtErrors := by
  induction n with
  | zero => intro s x h; exact h
  | succ k ih =>
    intro s x h
    show x ∈ (runTicks d k (renderTick d s)).caughtErrors
    apply ih
    show x ∈ (renderTick d s).caughtErrors
    unfold renderTick
    dsimp only
    split <;> simp [h]

theorem runTicks_caught_mem (d : Nat → Except String Unit) (n : Nat) :
    ∀ (s : SceneState) (i : Nat), i < n →
      (∃ e, d (s.frameCount + i) = .error e) →
      (s.frameCount + i) ∈ (runTicks d n s).caughtErrors := by
  induction n with
  | zero => intro s i h; omega
  | succ k ih =>
    intro s i hlt he
    rcases he with ⟨e, he⟩
    show (s.frameCount + i) ∈ (runTicks d k (renderTick d s)).caughtErrors
    cases i with
    | zero =>
      apply runTicks_caught_mono
      show (s.frameCount + 0) ∈ (renderTick d s).caughtErrors
      rw [Nat.add_zero] at he ⊢
      unfold renderTick
      dsimp only
      rw [he]
      simp
    | succ j =>
      have heq : s.frameCount + (j + 1) = (renderTick d s).frameCount + j := by
        show s.frameCount + (j + 1) = s.frameCount + 1 + j
        omega
      rw [heq] at he ⊢
      exact ih (renderTick d s) j (by omega) ⟨e, he⟩

/-! ## Claim theorems C9 - C10 -/

/-- C9: over any number of ticks from mount, the compiled routine is invoked
once per tick with `frameCount` running 0, 1, 2, ... (independently of which
invocations throw); and when the invocation at frame 5 throws, the error is
caught (recorded) and the invocation at frame 6 still happens. -/
theorem c9_frame_loop :
    (∀ (d : Nat → Except String Unit) (n : Nat),
        (runTicks d n mountScene).invocations = List.range n) ∧
    (∀ (d : Nat → Except String Unit) (e : String), d 5 = .error e →
        5 ∈ (runTicks d 7 mountScene).caughtErrors ∧
        6 ∈ (runTicks d 7 mountScene).invocations) := by
  constructor
  · intro d n
    rw [runTicks_invocations]
    show [] ++ (List.range n).map (0 + ·) = List.range n
    simp
  · intro d e he
    constructor
    · have h := runTicks_caught_mem d 7 mountScene 5 (by omega)
        ⟨e, by simpa using he⟩
      simpa using h
    · rw [runTicks_invocations]
      show 6 ∈ [] ++ (List.range 7).map (0 + ·)
      simp

/-- C9 witness: with a script throwing on frame 5, the throw is caught and
frame 6 is still invoked. -/
theorem c9_frame_loop_witness :
    5 ∈ (runTicks demoDraw 7 mountScene).caughtErrors ∧
    6 ∈ (runTicks demoDraw 7 mountScene).invocations :=
  c9_frame_loop.2 demoDraw "forced throw" rfl

/-- C10: replacing the script after `k` ticks does not reset the frame
counter: the combined invocation sequence is `0, 1, ..., k + m - 1` (strictly
increasing across both scripts), and the first invocation of the new script
receives `k` — the value following the previous script's last frame — and not
0. -/
theorem c10_framecount_persists :
    ∀ (dA dB : Nat → Except String Unit) (k m : Nat), 0 < k → 0 < m →
      (runTicks dB m (scriptChange (runTicks dA k mountScene))).invocations =
        List.range (k + m) ∧
      ((runTicks dB m
          (scriptChange (runTicks dA k mountScene))).invocations.drop k).head?
        = some k ∧
      k ≠ 0 ∧
      List.Pairwise (· < ·)
        (runTicks dB m
          (scriptChange (runTicks dA k mountScene))).invocations := by
  intro dA dB k m hk hm
  have hfc : (scriptChange (runTicks dA k mountScene)).frameCount = k := by
    show (runTicks dA k mountScene).frameCount = k
    rw [runTicks_frameCount]
    show 0 + k = k
    omega
  have hinv1 : (scriptChange (runTicks dA k mountScene)).invocations =
      List.range k := by
    show (runTicks dA k mountScene).invocations = List.range k
    rw [runTicks_invocations]
    show [] ++ (List.range k).map (0 + ·) = List.range k
    simp
  have hmain :
      (runTicks dB m (scriptChange (runTicks dA k mountScene))).invocations =
        List.range (k + m) := by
    rw [runTicks_invocations, hinv1, hfc, List.range_add]
  refine ⟨hmain, ?_, by omega, ?_⟩
  · rw [hmain, List.range_add]
    have hdrop : (List.range k ++ (List.range m).map (k + ·)).drop k =
        (List.range m).map (k + ·) :=
      List.drop_left' (List.length_range k)
    rw [hdrop]
    cases m with
    | zero => omega
    | succ j =>
      rw [List.range_succ_eq_map]
      simp
  · rw [hmain]
    exact List.pairwise_lt_range _

/-- C10 witness: two ticks of the first script then three of its replacement:
invocations are 0..4, the new script starts at frameCount 2, not 0. -/
theorem c10_framecount_persists_witness :
    (runTicks demoDrawOk 3 (scriptChange (runTicks demoDrawOk 2
        mountScene))).invocations = List.range (2 + 3) ∧
    ((runTicks demoDrawOk 3 (scriptChange (runTicks demoDrawOk 2
        mountScene))).invocations.drop 2).head? = some 2 ∧
    (2 : Nat) ≠ 0 ∧
    List.Pairwise (· < ·)
      (runTicks demoDrawOk 3 (scriptChange (runTicks demoDrawOk 2
        mountScene))).invocations :=
  c10_framecount_persists demoDrawOk demoDrawOk 2 3 (by decide) (by decide)
